import Mathlib

/-!
Shallow embedding of the risk-based severity engine of the
OCI-Firewall-Parser repository (`severity_engine.py`), together with
proofs settling the specification claims about it.

Severities are modelled as the strings the source manipulates; all
floating-point arithmetic of the source is modelled exactly over `ℚ`
(every constant in the source is a decimal literal, so no rounding
behaviour is lost).  Python dictionaries become association lists with a
first-match lookup (`alook`), which agrees with dictionaries because
loaded JSON objects have distinct keys.  Python string truthiness
(`if category:` / `if sev:`) is modelled explicitly via emptiness
checks.
-/

/-- Python `str.lower()` (character-wise, as the engine only ever
compares ASCII identifiers and keywords). -/
def pyLower (s : String) : String := ⟨s.data.map Char.toLower⟩

/-- Python `str.upper()`. -/
def pyUpper (s : String) : String := ⟨s.data.map Char.toUpper⟩

/-- Python `str.strip()`: drop whitespace on both ends. -/
def pyStrip (s : String) : String :=
  ⟨((s.data.dropWhile Char.isWhitespace).reverse.dropWhile Char.isWhitespace).reverse⟩

/-- Python string truthiness / `not s`: emptiness. -/
def pyEmpty (s : String) : Bool := s.data.isEmpty

/-- `SEV_ORDER` of `severity_engine.py`: canonical severity labels in
increasing order. -/
def SEV_ORDER : List String := ["INFO", "LOW", "MEDIUM", "HIGH", "CRITICAL"]

/-- Association-list lookup, modelling Python `dict.get` (`none` when the
key is absent). -/
def alook {α : Type _} (k : String) : List (String × α) → Option α
  | [] => none
  | kv :: t => if k = kv.1 then some kv.2 else alook k t

/-- Whether character list `p` occurs at the start of `l`. -/
def startsWithL : List Char → List Char → Bool
  | [], _ => true
  | _ :: _, [] => false
  | a :: as, b :: bs => a == b && startsWithL as bs

/-- Whether character list `p` occurs contiguously inside `l`. -/
def containsL (p : List Char) : List Char → Bool
  | [] => p.isEmpty
  | b :: t => startsWithL p (b :: t) || containsL p t

/-- Python's `pat in text` substring test on strings. -/
def strIn (pat text : String) : Bool := containsL pat.data text.data

/-- Index of `s` in a list of strings, modelling `list.index` wrapped in
`try/except` (the caller supplies the fallback). -/
def idxOf (s : String) : List String → Option Nat
  | [] => none
  | a :: t => if s = a then some 0 else (idxOf s t).map (· + 1)

/-- `SeverityEngine._rank`: position of the upper-cased label in
`SEV_ORDER`, with 0 (INFO) as the fallback for unknown labels. -/
def rank (sev : String) : Nat :=
  match idxOf (pyUpper sev) SEV_ORDER with
  | some i => i
  | none => 0

/-- `SeverityEngine._max_severity`: returns `a` when `rank a ≥ rank b`,
else `b` (note it returns the argument string itself, verbatim). -/
def maxSeverity (a b : String) : String :=
  if rank b ≤ rank a then a else b

/-- A value found in a `mitre_risk.json` field: either a value that
Python's `float()` accepts (including numeric strings), carried as the
exact rational it denotes, or a non-numeric value on which `float()`
raises. -/
inductive RVal where
  | num (q : ℚ)
  | nonNum
deriving DecidableEq

/-- One entry of the per-technique risk metadata (`mitre_risk.json`):
optional `cvss` and `impact` fields. -/
structure RiskEntry where
  cvss : Option RVal := none
  impact : Option RVal := none
deriving DecidableEq

/-- One profile section of `severity_mapping.json` ("acunetix" or
"cvss"), with absent tables modelled as empty lists. -/
structure Profile where
  mitre_overrides : List (String × String) := []
  mitre_to_category : List (String × String) := []
  category_to_severity : List (String × String) := []
  escalation : List (String × Int) := []
  critical_asset_keywords : List String := []
  cvss_thresholds : List (String × ℚ) := []
deriving DecidableEq

/-- In-memory state of a constructed `SeverityEngine`: the two profile
sections and the optional risk metadata.  The derived fields the
constructor computes (`escalation`, `critical_asset_keywords`) are
modelled as functions below; the hard-coded `asset_criticality` table is
a constant. -/
structure Engine where
  acu : Profile := {}
  cvss : Profile := {}
  mitre_risk : List (String × RiskEntry) := []
deriving DecidableEq

/-- The engine built from an empty (missing/malformed) mapping file and
no risk metadata. -/
def eEmpty : Engine := {}

/-- `self.escalation = self.acu.get("escalation") or self.cvss.get("escalation") or {}`
(absent and empty dictionaries are both falsy). -/
def Engine.escalation (e : Engine) : List (String × Int) :=
  if e.acu.escalation.isEmpty then e.cvss.escalation else e.acu.escalation

/-- `self.critical_asset_keywords = {k.lower() for k in (acu_kw + cvss_kw)}`
(kept as a list; only membership/iteration is ever used). -/
def Engine.criticalKeywords (e : Engine) : List String :=
  (e.acu.critical_asset_keywords ++ e.cvss.critical_asset_keywords).map pyLower

/-- The hard-coded `self.asset_criticality` table of `__init__`. -/
def asset_criticality : List (String × ℚ) :=
  [("tos-nusantara.pelindo.co.id", 1.5),
   ("phinnisi.pelindo.co.id", 1.4),
   ("parama.pelindo.co.id", 1.3),
   ("praya.pelindo.co.id", 1.2),
   ("ptosc.pelindo.co.id", 1.1),
   ("ptosr.pelindo.co.id", 1.1)]

/-- Python `if sev:` applied to the result of a severity-table lookup:
an empty severity string counts as no result. -/
def sevHit (o : Option String) : Option String :=
  match o with
  | some s => if pyEmpty s then none else some s
  | none => none

/-- The `if category: sev = tbl.get(category); if sev: return sev` step
of `_base_severity` for one category table. -/
def catSev (tbl : List (String × String)) (cat : Option String) : Option String :=
  match cat with
  | some c => if pyEmpty c then none else sevHit (alook c tbl)
  | none => none

/-- `SeverityEngine._base_severity`: static severity from the mapping,
returning `(severity?, category?)` exactly as the source does. -/
def baseSeverity (e : Engine) (mid : String) (hint : Option String) :
    Option String × Option String :=
  match alook mid e.acu.mitre_overrides with
  | some s => (some s, none)
  | none =>
    let cat0 : Option String :=
      match hint with
      | some h => some h
      | none => alook mid e.acu.mitre_to_category
    match catSev e.acu.category_to_severity cat0 with
    | some s => (some s, cat0)
    | none =>
      let cat1 : Option String :=
        match cat0 with
        | some c => some c
        | none => alook mid e.cvss.mitre_to_category
      match catSev e.cvss.category_to_severity cat1 with
      | some s => (some s, cat1)
      | none =>
        match alook mid e.cvss.mitre_overrides with
        | some s => (some s, cat1)
        | none => (none, cat1)

/-- The base severity as `classify` uses it: `_base_severity`'s first
component with the `LOW` default of `classify`. -/
def classifyBase (e : Engine) (mid : String) (hint : Option String) : String :=
  (baseSeverity e mid hint).1.getD "LOW"

/-- The literal default `cvss_thresholds` dictionary of `_cvss_for_mitre`. -/
def defaultCvssThresholds : List (String × ℚ) :=
  [("critical_min", 9.0), ("high_min", 7.0), ("medium_min", 4.0), ("low_min", 0.1)]

/-- The heuristic fallback block of `_cvss_for_mitre` (step 2 of its
doc-comment): tier floors combined with the configured thresholds. -/
def cvssHeuristic (e : Engine) (bsev : String) : ℚ :=
  let b := pyUpper bsev
  let thr := if e.cvss.cvss_thresholds.isEmpty then defaultCvssThresholds
             else e.cvss.cvss_thresholds
  if b = "CRITICAL" then max 9.5 ((alook "critical_min" thr).getD 9.0)
  else if b = "HIGH" then max 7.5 ((alook "high_min" thr).getD 7.0)
  else if b = "MEDIUM" then max 5.5 ((alook "medium_min" thr).getD 4.0)
  else if b = "LOW" then max 3.0 ((alook "low_min" thr).getD 0.1)
  else 1

/-- The explicit-value branch of `_cvss_for_mitre`: the entry's `cvss`
field when it is numeric and within `[0, 10]`. -/
def usableCvss (entry : RiskEntry) : Option ℚ :=
  match entry.cvss with
  | some (RVal.num v) => if 0 ≤ v ∧ v ≤ 10 then some v else none
  | _ => none

/-- `SeverityEngine._cvss_for_mitre`. -/
def cvssForMitre (e : Engine) (mid bsev : String) : ℚ :=
  match (alook mid e.mitre_risk).bind usableCvss with
  | some v => v
  | none => cvssHeuristic e bsev

/-- The heuristic fallback block of `_impact_for_mitre`. -/
def impactHeuristic (bsev : String) : ℚ :=
  let s := pyUpper bsev
  if s = "CRITICAL" then 40
  else if s = "HIGH" then 30
  else if s = "MEDIUM" then 20
  else if s = "LOW" then 10
  else 5

/-- The explicit-value branch of `_impact_for_mitre`: the entry's
`impact` field when numeric and `≥ 0`, clamped to at most 40 by
`min(v, 40.0)`. -/
def usableImpact (entry : RiskEntry) : Option ℚ :=
  match entry.impact with
  | some (RVal.num v) => if 0 ≤ v then some (min v 40) else none
  | _ => none

/-- `SeverityEngine._impact_for_mitre`. -/
def impactForMitre (e : Engine) (mid bsev : String) : ℚ :=
  match (alook mid e.mitre_risk).bind usableImpact with
  | some v => v
  | none => impactHeuristic bsev

/-- `SeverityEngine._volume_factor` (the inner `int(count or 0)` is the
identity on the integer argument). -/
def volumeFactor (e : Engine) (count : Int) : ℚ :=
  let esc := Engine.escalation e
  let countHigh : Int := (alook "count_high" esc).getD 20
  let countCritical : Int := (alook "count_critical" esc).getD 200
  if countCritical ≤ count then 30
  else if countHigh ≤ count then 15
  else if 0 < count then 5
  else 0

/-- `SeverityEngine._asset_factor`. -/
def assetFactor (e : Engine) (hostname identity : Option String) : ℚ :=
  let hn := pyStrip (pyLower (hostname.getD ""))
  let idn := pyStrip (pyLower (identity.getD ""))
  match alook hn asset_criticality with
  | some v => v
  | none =>
    let text := hn ++ " " ++ idn
    if (Engine.criticalKeywords e).any (fun k => strIn k text) then 1.4 else 1

/-- `SeverityEngine._has_critical_keyword` (the loop skips empty
keywords via `if kw and kw in text`). -/
def hasCriticalKeyword (e : Engine) (hostname identity : Option String) : Bool :=
  let text := pyLower ((hostname.getD "") ++ " " ++ (identity.getD ""))
  if pyEmpty text then false
  else (Engine.criticalKeywords e).any (fun k => !pyEmpty k && strIn k text)

/-- The final `0 ≤ risk ≤ 100` clamp of `_compute_risk_score`. -/
def clampRisk (x : ℚ) : ℚ := if x < 0 then 0 else if 100 < x then 100 else x

/-- `SeverityEngine._compute_risk_score`.  The entry normalisation
`(base_severity or "LOW").upper()` is modelled by the emptiness test. -/
def computeRiskScore (e : Engine) (mid bsev : String) (count : Int)
    (hostname identity : Option String) : ℚ :=
  let bs := pyUpper (if pyEmpty bsev then "LOW" else bsev)
  let cvssScore := cvssForMitre e mid bs
  let impactScore := impactForMitre e mid bs
  let volumeScore := volumeFactor e count
  let risk := cvssScore * 6 + impactScore + volumeScore
  let risk2 := risk * assetFactor e hostname identity
  let risk3 := if hasCriticalKeyword e hostname identity then risk2 + 10 else risk2
  clampRisk risk3

/-- `SeverityEngine._severity_from_risk_score`. -/
def severityFromRiskScore (s : ℚ) : String :=
  if 90 ≤ s then "CRITICAL"
  else if 70 ≤ s then "HIGH"
  else if 40 ≤ s then "MEDIUM"
  else if 0 < s then "LOW"
  else "INFO"

/-- `SeverityEngine.classify`: the public entry point.  `int(count or 0)`
is the identity on integer counts and is dropped. -/
def classify (e : Engine) (mitreId : String) (count : Int)
    (hostname identity categoryHint : Option String) : String :=
  let mid := pyStrip mitreId
  let baseSev := classifyBase e mid categoryHint
  let riskScore := computeRiskScore e mid baseSev count hostname identity
  let riskSev := severityFromRiskScore riskScore
  maxSeverity baseSev riskSev

/-! ## Loading (`SeverityEngine.__init__`)

A minimal JSON value type, enough to model the mapping file's shape
dispatch.  `__init__` reads `data.get("acunetix", {}) or {}` and
`data.get("cvss", {}) or {}`; a missing or malformed file yields
`data = {}` via the `try/except` block.  Table contents are extracted
into the typed `Profile` fields; entries of the wrong JSON type are
dropped, which is faithful for every schema-conforming configuration
(the source would carry them along untyped and only fail much later,
inside lookups no claim exercises on ill-typed data). -/

/-- JSON values. -/
inductive JVal where
  | jnull
  | jbool (b : Bool)
  | jnum (q : ℚ)
  | jstr (s : String)
  | jarr (xs : List JVal)
  | jobj (fields : List (String × JVal))

/-- `data.get(key, {})` followed by use as a dictionary: the object's
fields when the key maps to an object, else empty. -/
def jSubObj (fields : List (String × JVal)) (k : String) : List (String × JVal) :=
  match alook k fields with
  | some (JVal.jobj o) => o
  | _ => []

/-- String-valued entries of a JSON object (override/category tables). -/
def jStrTable (o : List (String × JVal)) : List (String × String) :=
  o.filterMap (fun kv =>
    match kv.2 with
    | JVal.jstr s => some (kv.1, s)
    | _ => none)

/-- Integer-valued entries of a JSON object (escalation thresholds). -/
def jIntTable (o : List (String × JVal)) : List (String × Int) :=
  o.filterMap (fun kv =>
    match kv.2 with
    | JVal.jnum q => if q.den = 1 then some (kv.1, q.num) else none
    | _ => none)

/-- Numeric entries of a JSON object (`cvss_thresholds`). -/
def jRatTable (o : List (String × JVal)) : List (String × ℚ) :=
  o.filterMap (fun kv =>
    match kv.2 with
    | JVal.jnum q => some (kv.1, q)
    | _ => none)

/-- A string array field of a JSON object (`critical_asset_keywords`). -/
def jStrList (fields : List (String × JVal)) (k : String) : List String :=
  match alook k fields with
  | some (JVal.jarr xs) =>
      xs.filterMap (fun v =>
        match v with
        | JVal.jstr s => some s
        | _ => none)
  | _ => []

/-- One profile section parsed from its JSON object. -/
def parseProfile (o : List (String × JVal)) : Profile :=
  { mitre_overrides := jStrTable (jSubObj o "mitre_overrides")
    mitre_to_category := jStrTable (jSubObj o "mitre_to_category")
    category_to_severity := jStrTable (jSubObj o "category_to_severity")
    escalation := jIntTable (jSubObj o "escalation")
    critical_asset_keywords := jStrList o "critical_asset_keywords"
    cvss_thresholds := jRatTable (jSubObj o "cvss_thresholds") }

/-- The profile-section dispatch of `__init__`: the engine state built
from the loaded mapping object (`data`) and the loaded risk metadata.
A missing or malformed mapping file corresponds to `data = []`. -/
def loadEngine (data : List (String × JVal)) (risk : List (String × RiskEntry)) : Engine :=
  { acu := parseProfile (jSubObj data "acunetix")
    cvss := parseProfile (jSubObj data "cvss")
    mitre_risk := risk }

/-- `load_mapping_file` of `oci-parser.py` — the legacy CLI loader,
distinct from `SeverityEngine.__init__` — applied to a loaded top-level
JSON object: returns the requested profile section when it is present as
an object, else the entire structure (flat legacy support); a missing or
invalid file is handled upstream by returning the empty object. -/
def load_mapping_file (data : List (String × JVal)) (profile : String) :
    List (String × JVal) :=
  match alook profile data with
  | some (JVal.jobj o) => o
  | _ => data

/-! ## Definitions written from the specification's words

These two definitions are NOT translations of the source; they render
claim C4's priority order (and its minimally amended form) so that the
source's `_base_severity` can be compared against them. -/

/-- Modelled from the claim's words (C4): base severity resolved as
(1) Profile A override; (2) the `category_hint` if supplied, else
Profile A's technique-to-category lookup, resolved through Profile A's
category-to-severity table; (3) the same category resolution performed
against Profile B (hint if supplied, else Profile B's
technique-to-category lookup, through Profile B's category-to-severity
table) when Profile A yielded nothing; (4) Profile B override;
(5) default `LOW`.  Empty-string categories and severities do not
resolve (Python truthiness). -/
def claimBaseSeverity (e : Engine) (mid : String) (hint : Option String) : String :=
  match alook mid e.acu.mitre_overrides with
  | some s => s
  | none =>
    let catA : Option String :=
      match hint with
      | some h => some h
      | none => alook mid e.acu.mitre_to_category
    match catSev e.acu.category_to_severity catA with
    | some s => s
    | none =>
      let catB : Option String :=
        match hint with
        | some h => some h
        | none => alook mid e.cvss.mitre_to_category
      match catSev e.cvss.category_to_severity catB with
      | some s => s
      | none =>
        match alook mid e.cvss.mitre_overrides with
        | some s => s
        | none => "LOW"

/-- The amended C4 priority order, written from the amended prose: step
(3) re-uses the category already resolved in step (2) — the hint or
Profile A's technique-to-category entry — against Profile B's
category-to-severity table, and consults Profile B's
technique-to-category lookup only when step (2) produced no category at
all. -/
def amendedBaseSeverity (e : Engine) (mid : String) (hint : Option String) : String :=
  match alook mid e.acu.mitre_overrides with
  | some s => s
  | none =>
    let cat0 : Option String :=
      match hint with
      | some h => some h
      | none => alook mid e.acu.mitre_to_category
    let catB : Option String :=
      match cat0 with
      | some c => some c
      | none => alook mid e.cvss.mitre_to_category
    match catSev e.acu.category_to_severity cat0 with
    | some s => s
    | none =>
      match catSev e.cvss.category_to_severity catB with
      | some s => s
      | none =>
        match alook mid e.cvss.mitre_overrides with
        | some s => s
        | none => "LOW"

/-! ## Claim-level predicates and concrete configurations -/

/-- Every severity string appearing in the override and
category-to-severity tables of both profiles is one of the five
canonical uppercase labels. -/
def canonicalSevs (e : Engine) : Prop :=
  (∀ kv ∈ e.acu.mitre_overrides, kv.2 ∈ SEV_ORDER) ∧
  (∀ kv ∈ e.cvss.mitre_overrides, kv.2 ∈ SEV_ORDER) ∧
  (∀ kv ∈ e.acu.category_to_severity, kv.2 ∈ SEV_ORDER) ∧
  (∀ kv ∈ e.cvss.category_to_severity, kv.2 ∈ SEV_ORDER)

/-- The entry's `cvss` field carries a value `_cvss_for_mitre` rejects:
non-numeric, or numeric but outside `[0, 10]`. -/
def badCvssField (entry : RiskEntry) : Prop :=
  match entry.cvss with
  | some (RVal.num v) => v < 0 ∨ 10 < v
  | some RVal.nonNum => True
  | none => False

/-- The entry's `impact` field carries a value `_impact_for_mitre`
rejects: non-numeric, or negative (note: values above 40 are NOT
rejected — they are clamped). -/
def badImpactField (entry : RiskEntry) : Prop :=
  match entry.impact with
  | some (RVal.num v) => v < 0
  | some RVal.nonNum => True
  | none => False

/-- The technique has no usable risk-metadata: its id is absent from the
store, or its entry's two fields are both rejected on read. -/
def noUsableRisk (e : Engine) (mid : String) : Prop :=
  ∀ entry, alook mid e.mitre_risk = some entry →
    usableCvss entry = none ∧ usableImpact entry = none

/-- A mapping whose acunetix profile holds only an INFO override. -/
def eC1 : Engine := { acu := { mitre_overrides := [("T1", "INFO")] } }

/-- A mapping whose acunetix profile holds only the critical-asset
keyword `admin`. -/
def eC3 : Engine := { acu := { critical_asset_keywords := ["admin"] } }

/-- A mapping where the acunetix profile maps T1 to a category with no
severity, while the cvss profile maps T1 to a different category that
does have one. -/
def eC4 : Engine :=
  { acu := { mitre_to_category := [("T1", "catA")] }
    cvss := { mitre_to_category := [("T1", "catB")]
              category_to_severity := [("catB", "HIGH")] } }

/-- A mapping whose acunetix profile holds a lowercase override. -/
def eC6 : Engine := { acu := { mitre_overrides := [("T1", "high")] } }

/-- A flat (non-profile-sectioned) mapping object: its top-level keys
are the table names themselves. -/
def flatData : List (String × JVal) :=
  [("mitre_overrides", JVal.jobj [("T1", JVal.jstr "CRITICAL")]),
   ("category_to_severity", JVal.jobj [("web", JVal.jstr "HIGH")])]

/-- Risk metadata carrying an impact of 50, above the 0–40 range. -/
def eC8 : Engine := { mitre_risk := [("T1", { impact := some (RVal.num 50) })] }

/-- A mapping holding a single CRITICAL override. -/
def eW1 : Engine := { acu := { mitre_overrides := [("T1190", "CRITICAL")] } }

/-- Risk metadata with an out-of-range cvss and an above-40 impact. -/
def eW8a : Engine :=
  { mitre_risk := [("T1", { cvss := some (RVal.num 11), impact := some (RVal.num 50) })] }

/-- Risk metadata whose two fields are non-numeric. -/
def eW8b : Engine :=
  { mitre_risk := [("T2", { cvss := some RVal.nonNum, impact := some RVal.nonNum })] }

/-! ## Helper lemmas -/

/-- A successful lookup returns an entry of the list. -/
lemma alook_mem {α : Type _} (k : String) (v : α) :
    ∀ l : List (String × α), alook k l = some v → (k, v) ∈ l := by
  intro l
  induction l with
  | nil => intro h; exact absurd h (by simp [alook])
  | cons kv t ih =>
    intro h
    rw [alook] at h
    split_ifs at h with hk
    · injection h with h2
      subst h2
      rw [hk]
      simp
    · exact List.mem_cons_of_mem _ (ih h)

/-- A category-table hit comes from an entry of the table. -/
lemma catSev_mem (tbl : List (String × String)) (cat : Option String) (s : String)
    (h : catSev tbl cat = some s) : ∃ c, (c, s) ∈ tbl := by
  cases cat with
  | none => exact absurd h (by simp [catSev])
  | some c =>
    rw [catSev] at h
    split_ifs at h
    cases ha : alook c tbl with
    | none => rw [ha] at h; exact absurd h (by simp [sevHit])
    | some t =>
      rw [ha, sevHit] at h
      split_ifs at h
      cases h
      exact ⟨c, alook_mem _ _ _ ha⟩

/-- Every weight of the hard-coded asset-criticality table is `≥ 1`. -/
lemma asset_table_ge_one (k : String) (v : ℚ)
    (hm : alook k asset_criticality = some v) : 1 ≤ v := by
  simp only [asset_criticality, alook] at hm
  split_ifs at hm <;>
    first
      | (injection hm with hv; subst hv; norm_num)
      | exact Option.noConfusion hm

/-- `_asset_factor` always returns a factor `≥ 1`. -/
lemma assetFactor_ge_one (e : Engine) (hn idn : Option String) :
    1 ≤ assetFactor e hn idn := by
  rw [assetFactor]
  cases hm : alook (pyStrip (pyLower (hn.getD ""))) asset_criticality with
  | some v => simpa using asset_table_ge_one _ _ hm
  | none => simp only; split_ifs <;> norm_num

/-- The heuristic CVSS fallback is `≥ 1` whatever the configured
thresholds are (each tier takes a `max` with a floor `≥ 1`). -/
lemma cvssHeuristic_ge_one (e : Engine) (bsev : String) : 1 ≤ cvssHeuristic e bsev := by
  rw [cvssHeuristic]
  split_ifs <;>
    first
      | norm_num
      | exact le_trans (by norm_num) (le_max_left _ _)

/-- An explicit CVSS value accepted by `_cvss_for_mitre` lies in `[0, 10]`. -/
lemma usableCvss_bounds (entry : RiskEntry) (v : ℚ) (h : usableCvss entry = some v) :
    0 ≤ v ∧ v ≤ 10 := by
  rw [usableCvss] at h
  rcases entry with ⟨cv, im⟩
  rcases cv with _ | rv
  · exact absurd h (by simp)
  · rcases rv with q | _
    · simp only at h
      split_ifs at h with hq
      · cases h; exact hq
    · exact absurd h (by simp)

/-- `_cvss_for_mitre` never returns a negative score. -/
lemma cvssForMitre_nonneg (e : Engine) (mid bsev : String) :
    0 ≤ cvssForMitre e mid bsev := by
  rw [cvssForMitre]
  cases hb : (alook mid e.mitre_risk).bind usableCvss with
  | none => exact le_trans (by norm_num) (cvssHeuristic_ge_one e bsev)
  | some v =>
    rcases Option.bind_eq_some.mp hb with ⟨entry, _, hv⟩
    simpa using (usableCvss_bounds entry v hv).1

/-- An explicit impact value accepted by `_impact_for_mitre` lies in `[0, 40]`. -/
lemma usableImpact_bounds (entry : RiskEntry) (v : ℚ) (h : usableImpact entry = some v) :
    0 ≤ v ∧ v ≤ 40 := by
  rw [usableImpact] at h
  rcases entry with ⟨cv, im⟩
  rcases im with _ | rv
  · exact absurd h (by simp)
  · rcases rv with q | _
    · simp only at h
      split_ifs at h with hq
      · cases h
        exact ⟨le_min hq (by norm_num), min_le_right _ _⟩
    · exact absurd h (by simp)

/-- The heuristic impact fallback is `≥ 5`. -/
lemma impactHeuristic_ge_five (bsev : String) : 5 ≤ impactHeuristic bsev := by
  rw [impactHeuristic]
  split_ifs <;> norm_num

/-- `_impact_for_mitre` never returns a negative score. -/
lemma impactForMitre_nonneg (e : Engine) (mid bsev : String) :
    0 ≤ impactForMitre e mid bsev := by
  rw [impactForMitre]
  cases hb : (alook mid e.mitre_risk).bind usableImpact with
  | none => exact le_trans (by norm_num) (impactHeuristic_ge_five bsev)
  | some v =>
    rcases Option.bind_eq_some.mp hb with ⟨entry, _, hv⟩
    simpa using (usableImpact_bounds entry v hv).1

/-- `_volume_factor` is non-negative. -/
lemma volumeFactor_nonneg (e : Engine) (c : Int) : 0 ≤ volumeFactor e c := by
  rw [volumeFactor]
  split_ifs <;> norm_num

/-- `_volume_factor` is monotone in the count, whatever the configured
thresholds are. -/
lemma volumeFactor_mono (e : Engine) (c1 c2 : Int) (hc : c1 ≤ c2) :
    volumeFactor e c1 ≤ volumeFactor e c2 := by
  simp only [volumeFactor]
  split_ifs <;> first | (exfalso; omega) | norm_num

/-- The final clamp is monotone. -/
lemma clampRisk_mono (x y : ℚ) (h : x ≤ y) : clampRisk x ≤ clampRisk y := by
  rw [clampRisk, clampRisk]
  split_ifs <;> linarith

/-- The clamp preserves lower bounds that are themselves within `[0, 100]`. -/
lemma clampRisk_ge (x a : ℚ) (h0 : 0 ≤ a) (h100 : a ≤ 100) (hx : a ≤ x) :
    a ≤ clampRisk x := by
  rw [clampRisk]
  split_ifs <;> linarith

/-- `_severity_from_risk_score` composed with `_rank` is monotone. -/
lemma rank_sevFromRisk_mono (s t : ℚ) (hst : s ≤ t) :
    rank (severityFromRiskScore s) ≤ rank (severityFromRiskScore t) := by
  rw [severityFromRiskScore, severityFromRiskScore]
  split_ifs <;> first | decide | linarith

/-- A strictly positive risk score lands in a bucket of rank `≥ 1`. -/
lemma rank_sevFromRisk_pos (s : ℚ) (hs : 0 < s) :
    1 ≤ rank (severityFromRiskScore s) := by
  rw [severityFromRiskScore]
  split_ifs <;> first | decide | linarith

/-- `_severity_from_risk_score` only produces the five canonical labels. -/
lemma sevFromRisk_mem (s : ℚ) : severityFromRiskScore s ∈ SEV_ORDER := by
  rw [severityFromRiskScore]
  split_ifs <;> decide

/-- The rank of `_max_severity` is the maximum of the ranks. -/
lemma rank_maxSeverity (a b : String) :
    rank (maxSeverity a b) = max (rank a) (rank b) := by
  rw [maxSeverity]
  split_ifs <;> omega

/-- `_max_severity` returns one of its two arguments verbatim. -/
lemma maxSeverity_cases (a b : String) : maxSeverity a b = a ∨ maxSeverity a b = b := by
  rw [maxSeverity]
  split_ifs <;> simp

/-- `classify` unfolded to its constituents. -/
lemma classify_unfold (e : Engine) (mid : String) (c : Int) (hn idn ch : Option String) :
    classify e mid c hn idn ch =
      maxSeverity (classifyBase e (pyStrip mid) ch)
        (severityFromRiskScore
          (computeRiskScore e (pyStrip mid) (classifyBase e (pyStrip mid) ch) c hn idn)) := rfl

/-- `_compute_risk_score` is monotone in the count (all other arguments
fixed): the volume factor is monotone and enters positively, and the
asset factor is non-negative. -/
lemma computeRisk_mono_count (e : Engine) (mid bsev : String) (hn idn : Option String)
    (c1 c2 : Int) (hc : c1 ≤ c2) :
    computeRiskScore e mid bsev c1 hn idn ≤ computeRiskScore e mid bsev c2 hn idn := by
  simp only [computeRiskScore]
  apply clampRisk_mono
  have hv := volumeFactor_mono e c1 c2 hc
  have haf : (0:ℚ) ≤ assetFactor e hn idn := le_trans (by norm_num) (assetFactor_ge_one e hn idn)
  have hmul :
      (cvssForMitre e mid (pyUpper (if pyEmpty bsev then "LOW" else bsev)) * 6 +
          impactForMitre e mid (pyUpper (if pyEmpty bsev then "LOW" else bsev)) +
          volumeFactor e c1) * assetFactor e hn idn ≤
      (cvssForMitre e mid (pyUpper (if pyEmpty bsev then "LOW" else bsev)) * 6 +
          impactForMitre e mid (pyUpper (if pyEmpty bsev then "LOW" else bsev)) +
          volumeFactor e c2) * assetFactor e hn idn :=
    mul_le_mul_of_nonneg_right (by linarith) haf
  split_ifs <;> linarith

/-- Risk score growth in the asset factor: replacing a hostname-less
call (factor 1, no keyword bonus) by a hostname whose factor is `w ≥ 1`
never lowers the risk score. -/
lemma computeRisk_asset_mono (e : Engine) (m bs : String) (c : Int) (idn : Option String)
    (hn : String) (w : ℚ)
    (hafh : assetFactor e (some hn) idn = w) (hw1 : 1 ≤ w)
    (haf : assetFactor e none idn = 1) (hkb : hasCriticalKeyword e none idn = false) :
    computeRiskScore e m bs c none idn ≤ computeRiskScore e m bs c (some hn) idn := by
  simp only [computeRiskScore]
  apply clampRisk_mono
  rw [haf, hkb, hafh]
  have h1 := cvssForMitre_nonneg e m (pyUpper (if pyEmpty bs then "LOW" else bs))
  have h2 := impactForMitre_nonneg e m (pyUpper (if pyEmpty bs then "LOW" else bs))
  have h3 := volumeFactor_nonneg e c
  have hmul := le_mul_of_one_le_right (by linarith :
    (0:ℚ) ≤ cvssForMitre e m (pyUpper (if pyEmpty bs then "LOW" else bs)) * 6 +
      impactForMitre e m (pyUpper (if pyEmpty bs then "LOW" else bs)) +
      volumeFactor e c) hw1
  cases hk2 : hasCriticalKeyword e (some hn) idn <;>
    simp only [hk2, Bool.false_eq_true, if_false, if_true, mul_one] <;>
    linarith

/-- With canonical severities in the mapping, `_base_severity` (plus the
`LOW` default) produces one of the five canonical labels. -/
lemma classifyBase_mem (e : Engine) (hc : canonicalSevs e) (mid : String) (hint : Option String) :
    classifyBase e mid hint ∈ SEV_ORDER := by
  obtain ⟨h1, h2, h3, h4⟩ := hc
  simp only [classifyBase, baseSeverity]
  cases ho : alook mid e.acu.mitre_overrides with
  | some s => simpa using h1 _ (alook_mem _ _ _ ho)
  | none =>
    simp only
    generalize (match hint with
      | some h => some h
      | none => alook mid e.acu.mitre_to_category) = C0
    cases hs1 : catSev e.acu.category_to_severity C0 with
    | some s =>
      obtain ⟨cc, hcm⟩ := catSev_mem _ _ _ hs1
      simpa using h3 _ hcm
    | none =>
      simp only
      generalize (match C0 with
        | some c => some c
        | none => alook mid e.cvss.mitre_to_category) = C1
      cases hs2 : catSev e.cvss.category_to_severity C1 with
      | some s =>
        obtain ⟨cc, hcm⟩ := catSev_mem _ _ _ hs2
        simpa using h4 _ hcm
      | none =>
        simp only
        cases ho2 : alook mid e.cvss.mitre_overrides with
        | some s => simpa using h2 _ (alook_mem _ _ _ ho2)
        | none => simp [SEV_ORDER]

/-! ## Claim C1 -/

/-- Claim C1 (counterexample): with an acunetix override of `INFO` for
`T1`, `classify("T1", 0, null, null, null)` returns `LOW`, not the
override — the risk floor (cvss 1.0·6 + impact 5 = 11 > 0) lands in the
LOW bucket and `max(INFO, LOW) = LOW`.  This refutes the claim for the
override value INFO. -/
theorem claim1_counterexample :
    alook "T1" eC1.acu.mitre_overrides = some "INFO" ∧
    classify eC1 "T1" 0 none none none = "LOW" ∧ ("LOW" : String) ≠ "INFO" := by
  refine ⟨by decide, ?_, by decide⟩
  norm_num +decide [classify, classifyBase, baseSeverity, catSev, sevHit, alook, eC1,
    computeRiskScore, cvssForMitre, cvssHeuristic, impactForMitre, impactHeuristic,
    usableCvss, usableImpact, volumeFactor, assetFactor, hasCriticalKeyword, clampRisk,
    severityFromRiskScore, maxSeverity, rank, idxOf, SEV_ORDER, Engine.escalation,
    Engine.criticalKeywords, asset_criticality, defaultCvssThresholds, strIn, containsL,
    startsWithL, pyLower, pyUpper, pyStrip, pyEmpty]

/-- Claim C1 (amended): for a technique with an acunetix override and no
usable risk metadata, default thresholds and no critical keywords,
`classify(id, 0, null, null, null)` returns exactly the override for the
override values LOW, MEDIUM, HIGH and CRITICAL; for the override value
INFO it returns LOW instead, because the risk-based floor always reaches
the LOW bucket. -/
theorem claim1_override_amended (e : Engine) (mid sev : String)
    (hov : alook mid e.acu.mitre_overrides = some sev)
    (htrim : pyStrip mid = mid)
    (hth : e.cvss.cvss_thresholds = [])
    (hkw : Engine.criticalKeywords e = [])
    (hesc : Engine.escalation e = [])
    (hmr : alook mid e.mitre_risk = none)
    (hsev : sev ∈ SEV_ORDER) :
    classify e mid 0 none none none = if sev = "INFO" then "LOW" else sev := by
  have hbase : classifyBase e mid none = sev := by
    simp [classifyBase, baseSeverity, hov]
  have hvol : volumeFactor e 0 = 0 := by
    norm_num [volumeFactor, hesc, alook]
  have haf : assetFactor e none none = 1 := by
    norm_num +decide [assetFactor, hkw, alook, asset_criticality, pyLower, pyStrip, pyEmpty]
  have hkb : hasCriticalKeyword e none none = false := by
    norm_num +decide [hasCriticalKeyword, hkw, pyLower, pyEmpty]
  rw [classify_unfold, htrim, hbase]
  fin_cases hsev <;>
    norm_num +decide [computeRiskScore, cvssForMitre, hmr, cvssHeuristic, hth,
      defaultCvssThresholds, alook, impactForMitre, impactHeuristic, hvol, haf, hkb,
      clampRisk, severityFromRiskScore, maxSeverity, rank, idxOf, SEV_ORDER,
      pyUpper, pyEmpty]

/-- Claim C1 (witness): the amended theorem applied to the concrete
engine holding the override `T1190 → CRITICAL`. -/
theorem claim1_witness : classify eW1 "T1190" 0 none none none = "CRITICAL" := by
  have h := claim1_override_amended eW1 "T1190" "CRITICAL" (by decide) (by decide) rfl
    (by decide) (by decide) rfl (by decide)
  rwa [if_neg (by decide)] at h

/-! ## Claim C2 -/

/-- Claim C2: for fixed technique, hostname, identity and hint, the
severity returned by `classify` is non-decreasing in the count (compared
in the INFO < LOW < MEDIUM < HIGH < CRITICAL order, i.e. by `_rank`),
for every loaded configuration. -/
theorem claim2_volume_monotone (e : Engine) (mid : String) (hn idn ch : Option String)
    (c1 c2 : Int) (hlt : c1 < c2) :
    rank (classify e mid c1 hn idn ch) ≤ rank (classify e mid c2 hn idn ch) := by
  rw [classify_unfold, classify_unfold, rank_maxSeverity, rank_maxSeverity]
  have h1 := rank_sevFromRisk_mono _ _
    (computeRisk_mono_count e (pyStrip mid) (classifyBase e (pyStrip mid) ch) hn idn c1 c2
      (le_of_lt hlt))
  omega

/-- Claim C2 (witness): counts 0 < 250 on the empty configuration. -/
theorem claim2_witness :
    rank (classify eEmpty "T1" 0 none none none) ≤
      rank (classify eEmpty "T1" 250 none none none) :=
  claim2_volume_monotone eEmpty "T1" none none none 0 250 (by norm_num)

/-! ## Claim C3 -/

/-- Claim C3 (counterexample): with critical keyword `admin` configured
and identity `admin`, classifying with the table hostname
`ptosc.pelindo.co.id` (weight 1.1 > 1.0) yields HIGH
(58·1.1 + 10 = 73.8), strictly below the CRITICAL
(58·1.4 + 10 = 91.2) of the same call with hostname null — the exact
hostname match preempts the keyword factor 1.4.  This refutes the
claimed monotonicity. -/
theorem claim3_counterexample :
    alook (pyStrip (pyLower "ptosc.pelindo.co.id")) asset_criticality = some 1.1 ∧
    (1:ℚ) < 1.1 ∧
    classify eC3 "T9999" 250 (some "ptosc.pelindo.co.id") (some "admin") none = "HIGH" ∧
    classify eC3 "T9999" 250 none (some "admin") none = "CRITICAL" ∧
    rank "HIGH" < rank "CRITICAL" := by
  refine ⟨rfl, by norm_num, ?_, ?_, by decide⟩ <;>
  norm_num +decide [classify, classifyBase, baseSeverity, catSev, sevHit, alook, eC3,
    computeRiskScore, cvssForMitre, cvssHeuristic, impactForMitre, impactHeuristic,
    usableCvss, usableImpact, volumeFactor, assetFactor, hasCriticalKeyword, clampRisk,
    severityFromRiskScore, maxSeverity, rank, idxOf, SEV_ORDER, Engine.escalation,
    Engine.criticalKeywords, asset_criticality, defaultCvssThresholds, strIn, containsL,
    startsWithL, pyLower, pyUpper, pyStrip, pyEmpty]

/-- Claim C3 (amended): classifying with a hostname present in the
asset-criticality table with weight > 1.0 never yields a lower severity
than the same call with hostname null, provided the hostname-null call
triggers no critical-asset keyword (asset factor 1 and no keyword
bonus), for every technique, count, identity and hint. -/
theorem claim3_asset_monotone (e : Engine) (mid : String) (c : Int) (hn : String)
    (idn ch : Option String) (w : ℚ)
    (hw : alook (pyStrip (pyLower hn)) asset_criticality = some w)
    (hw1 : 1 < w)
    (haf : assetFactor e none idn = 1)
    (hkb : hasCriticalKeyword e none idn = false) :
    rank (classify e mid c none idn ch) ≤ rank (classify e mid c (some hn) idn ch) := by
  rw [classify_unfold, classify_unfold, rank_maxSeverity, rank_maxSeverity]
  have hafh : assetFactor e (some hn) idn = w := by
    simp only [assetFactor, Option.getD_some, hw]
  have hmono := computeRisk_asset_mono e (pyStrip mid) (classifyBase e (pyStrip mid) ch) c idn
    hn w hafh (le_of_lt hw1) haf hkb
  have h1 := rank_sevFromRisk_mono _ _ hmono
  omega

/-- Claim C3 (witness): the amended theorem at the weight-1.5 hostname
on the empty configuration. -/
theorem claim3_witness :
    rank (classify eEmpty "T9999" 250 none none none) ≤
      rank (classify eEmpty "T9999" 250 (some "tos-nusantara.pelindo.co.id") none none) :=
  claim3_asset_monotone eEmpty "T9999" 250 "tos-nusantara.pelindo.co.id" none none 1.5
    rfl (by norm_num) rfl rfl

/-! ## Claim C4 -/

/-- Claim C4 (counterexample): with acunetix mapping `T1 → catA` (no
severity for `catA` anywhere) and cvss mapping `T1 → catB → HIGH`, the
claimed priority order resolves the base severity to HIGH through
Profile B's category lookup, but the code carries Profile A's category
`catA` into Profile B's severity table, never consults
`cvss.mitre_to_category`, and falls through to the LOW default —
`classify` returns LOW. -/
theorem claim4_counterexample :
    claimBaseSeverity eC4 "T1" none = "HIGH" ∧
    classifyBase eC4 "T1" none = "LOW" ∧
    classify eC4 "T1" 0 none none none = "LOW" := by
  refine ⟨by decide, by decide, ?_⟩
  norm_num +decide [classify, classifyBase, baseSeverity, catSev, sevHit, alook, eC4,
    computeRiskScore, cvssForMitre, cvssHeuristic, impactForMitre, impactHeuristic,
    usableCvss, usableImpact, volumeFactor, assetFactor, hasCriticalKeyword, clampRisk,
    severityFromRiskScore, maxSeverity, rank, idxOf, SEV_ORDER, Engine.escalation,
    Engine.criticalKeywords, asset_criticality, defaultCvssThresholds, strIn, containsL,
    startsWithL, pyLower, pyUpper, pyStrip, pyEmpty]

/-- Claim C4 (amended): the base severity used by `classify` equals the
amended priority order — (1) Profile A override; (2) hint-or-Profile-A
category through Profile A's severity table; (3) that same category (or,
only if no category resolved at all, Profile B's technique-to-category
entry) through Profile B's severity table; (4) Profile B override;
(5) LOW — for every configuration, technique and hint. -/
theorem claim4_order_refines (e : Engine) (mid : String) (hint : Option String) :
    classifyBase e mid hint = amendedBaseSeverity e mid hint := by
  simp only [classifyBase, baseSeverity, amendedBaseSeverity]
  generalize alook mid e.acu.mitre_overrides = X
  cases X with
  | some s => simp
  | none =>
    simp only
    generalize (match hint with
      | some h => some h
      | none => alook mid e.acu.mitre_to_category) = C0
    generalize (match C0 with
      | some c => some c
      | none => alook mid e.cvss.mitre_to_category) = C1
    generalize catSev e.acu.category_to_severity C0 = S1
    cases S1 with
    | some s => simp
    | none =>
      simp only
      generalize catSev e.cvss.category_to_severity C1 = S2
      cases S2 with
      | some s => simp
      | none =>
        simp only
        generalize alook mid e.cvss.mitre_overrides = X2
        cases X2 <;> simp

/-! ## Claim C5 -/

/-- Claim C5: `classify` is total — mirrored here by the fact that the
embedding is a total function over every string technique id, every
integer count (including -1) and arbitrary optional strings (every
partial operation of the source is guarded by `dict.get` or
`try/except`) — and, under the default escalation thresholds, a count of
-1 behaves exactly as a count of 0: both contribute volume 0. -/
theorem claim5_total_negative_count (e : Engine) (mid : String) (hn idn ch : Option String)
    (ha : e.acu.escalation = []) (hb : e.cvss.escalation = []) :
    classify e mid (-1) hn idn ch = classify e mid 0 hn idn ch := by
  have hesc : Engine.escalation e = [] := by simp [Engine.escalation, ha, hb]
  have hv : volumeFactor e (-1) = volumeFactor e 0 := by
    norm_num [volumeFactor, hesc, alook]
  rw [classify_unfold, classify_unfold]
  simp only [computeRiskScore, hv]

/-- Claim C5 (witness): empty technique id, count -1, and unicode
mixed-case hostname/identity on the empty configuration. -/
theorem claim5_witness :
    classify eEmpty "" (-1) (some "ÜNSÖL.example") (some "αβ") none =
      classify eEmpty "" 0 (some "ÜNSÖL.example") (some "αβ") none :=
  claim5_total_negative_count eEmpty "" (some "ÜNSÖL.example") (some "αβ") none rfl rfl

/-! ## Claim C6 -/

/-- Claim C6 (counterexample): with a lowercase override `high`,
`classify` returns the string `"high"` verbatim (`_max_severity` returns
its argument, not a canonical label), which is not one of the five
canonical labels.  This refutes the claim for configurations with
non-uppercase severity strings. -/
theorem claim6_counterexample :
    classify eC6 "T1" 0 none none none = "high" ∧ ("high" : String) ∉ SEV_ORDER := by
  refine ⟨?_, by decide⟩
  norm_num +decide [classify, classifyBase, baseSeverity, catSev, sevHit, alook, eC6,
    computeRiskScore, cvssForMitre, cvssHeuristic, impactForMitre, impactHeuristic,
    usableCvss, usableImpact, volumeFactor, assetFactor, hasCriticalKeyword, clampRisk,
    severityFromRiskScore, maxSeverity, rank, idxOf, SEV_ORDER, Engine.escalation,
    Engine.criticalKeywords, asset_criticality, defaultCvssThresholds, strIn, containsL,
    startsWithL, pyLower, pyUpper, pyStrip, pyEmpty]

/-- Claim C6 (amended): whenever every severity string in the loaded
mapping's override and category-to-severity tables is one of the five
canonical uppercase labels, `classify` returns one of exactly those five
labels, for every input. -/
theorem claim6_canonical_output (e : Engine) (hc : canonicalSevs e)
    (mid : String) (c : Int) (hn idn ch : Option String) :
    classify e mid c hn idn ch ∈ SEV_ORDER := by
  rw [classify_unfold]
  rcases maxSeverity_cases (classifyBase e (pyStrip mid) ch)
      (severityFromRiskScore
        (computeRiskScore e (pyStrip mid) (classifyBase e (pyStrip mid) ch) c hn idn)) with
    h | h <;> rw [h]
  · exact classifyBase_mem e hc _ _
  · exact sevFromRisk_mem _

/-- Claim C6 (witness): the empty configuration is canonical and the
output lands in the canonical label set. -/
theorem claim6_witness : classify eEmpty "T0" 7 none none none ∈ SEV_ORDER :=
  claim6_canonical_output eEmpty (by simp [canonicalSevs, eEmpty]) "T0" 7 none none none

/-! ## Claim C7 -/

/-- Claim C7 (counterexample): loading a flat mapping object whose
top-level keys are the table names leaves both profiles EMPTY — there is
no flat-profile fallback — so the flat override `T1 → CRITICAL` is
ignored and `classify` returns the LOW default, refuting the claim that
the flat tables are used. -/
theorem claim7_counterexample :
    (loadEngine flatData []).acu.mitre_overrides = [] ∧
    (loadEngine flatData []).cvss.mitre_overrides = [] ∧
    classify (loadEngine flatData []) "T1" 0 none none none = "LOW" ∧
    ("LOW" : String) ≠ "CRITICAL" := by
  refine ⟨by decide, by decide, ?_, by decide⟩
  norm_num +decide [classify, classifyBase, baseSeverity, catSev, sevHit, alook,
    loadEngine, flatData, parseProfile, jSubObj, jStrTable, jIntTable, jRatTable, jStrList,
    computeRiskScore, cvssForMitre, cvssHeuristic, impactForMitre, impactHeuristic,
    usableCvss, usableImpact, volumeFactor, assetFactor, hasCriticalKeyword, clampRisk,
    severityFromRiskScore, maxSeverity, rank, idxOf, SEV_ORDER, Engine.escalation,
    Engine.criticalKeywords, asset_criticality, defaultCvssThresholds, strIn, containsL,
    startsWithL, pyLower, pyUpper, pyStrip, pyEmpty]

/-- Claim C7 (amended): when the two profile sections are absent from
the loaded mapping object, the engine behind `classify` is exactly the
one loaded from the empty object (all-empty profiles — the flat
structure is ignored, and a missing or malformed file loads as the empty
object, so loading never fails); the claimed flat-single-profile
fallback exists only in the legacy CLI loader `load_mapping_file` of
`oci-parser.py`, which does return the whole flat structure but does not
feed `classify`. -/
theorem claim7_flat_ignored (data : List (String × JVal)) (risk : List (String × RiskEntry))
    (h1 : alook "acunetix" data = none) (h2 : alook "cvss" data = none) :
    loadEngine data risk = loadEngine [] risk ∧
    load_mapping_file data "acunetix" = data ∧
    load_mapping_file data "cvss" = data := by
  refine ⟨by simp [loadEngine, jSubObj, h1, h2, alook], ?_, ?_⟩
  · rw [load_mapping_file, h1]
  · rw [load_mapping_file, h2]

/-- Claim C7 (witness): the flat sample object has no profile sections —
the engine loads it exactly like the empty mapping while the legacy CLI
loader returns it whole. -/
theorem claim7_witness :
    loadEngine flatData [] = loadEngine [] [] ∧
    load_mapping_file flatData "acunetix" = flatData ∧
    load_mapping_file flatData "cvss" = flatData :=
  claim7_flat_ignored flatData [] rfl rfl

/-! ## Claim C8 -/

/-- Claim C8 (counterexample): an impact of 50 (outside `[0, 40]`) is
not discarded: `_impact_for_mitre` clamps it to 40 and uses it, instead
of falling back to the base-LOW heuristic value 10, and the final
verdict rises to MEDIUM (58 ≥ 40) where the heuristic would give
LOW (28). -/
theorem claim8_counterexample :
    impactForMitre eC8 "T1" "LOW" = 40 ∧ impactHeuristic "LOW" = 10 ∧
    classify eC8 "T1" 0 none none none = "MEDIUM" ∧ ((40:ℚ) ≠ 10) := by
  refine ⟨?_, ?_, ?_, by norm_num⟩ <;>
  norm_num +decide [classify, classifyBase, baseSeverity, catSev, sevHit, alook, eC8,
    computeRiskScore, cvssForMitre, cvssHeuristic, impactForMitre, impactHeuristic,
    usableCvss, usableImpact, volumeFactor, assetFactor, hasCriticalKeyword, clampRisk,
    severityFromRiskScore, maxSeverity, rank, idxOf, SEV_ORDER, Engine.escalation,
    Engine.criticalKeywords, asset_criticality, defaultCvssThresholds, strIn, containsL,
    startsWithL, pyLower, pyUpper, pyStrip, pyEmpty]

/-- Claim C8 (amended): for a technique whose metadata entry is present,
(i) a non-numeric or out-of-`[0,10]` `cvss` field is discarded and the
heuristic used; (ii) a non-numeric or negative `impact` field is
discarded and the heuristic used; (iii) an `impact` value above 40 is
NOT discarded — it is clamped to exactly 40. -/
theorem claim8_out_of_range_amended (e : Engine) (mid bsev : String) (entry : RiskEntry)
    (he : alook mid e.mitre_risk = some entry) :
    (badCvssField entry → cvssForMitre e mid bsev = cvssHeuristic e bsev) ∧
    (badImpactField entry → impactForMitre e mid bsev = impactHeuristic bsev) ∧
    (∀ v : ℚ, entry.impact = some (RVal.num v) → 40 < v → impactForMitre e mid bsev = 40) := by
  refine ⟨?_, ?_, ?_⟩
  · intro hbad
    have hnone : usableCvss entry = none := by
      rcases entry with ⟨cv, im⟩
      rcases cv with _ | q | _
      · rfl
      · rw [badCvssField] at hbad
        simp only at hbad
        rw [usableCvss]
        simp only
        rw [if_neg]
        rcases hbad with hb | hb
        · intro hcon; linarith [hcon.1]
        · intro hcon; linarith [hcon.2]
      · rfl
    rw [cvssForMitre, he]
    simp [hnone]
  · intro hbad
    have hnone : usableImpact entry = none := by
      rcases entry with ⟨cv, im⟩
      rcases im with _ | q | _
      · rfl
      · rw [badImpactField] at hbad
        simp only at hbad
        rw [usableImpact]
        simp only
        rw [if_neg]
        intro hcon; linarith
      · rfl
    rw [impactForMitre, he]
    simp [hnone]
  · intro v hv h40
    have hsome : usableImpact entry = some 40 := by
      rw [usableImpact, hv]
      simp only
      rw [if_pos (by linarith)]
      rw [min_eq_right (le_of_lt h40)]
    rw [impactForMitre, he]
    simp [hsome]

/-- Claim C8 (witness): the amended theorem at a cvss of 11 (discarded),
a non-numeric pair (discarded), and an impact of 50 (clamped to 40). -/
theorem claim8_witness :
    cvssForMitre eW8a "T1" "LOW" = cvssHeuristic eW8a "LOW" ∧
    impactForMitre eW8a "T1" "LOW" = 40 ∧
    impactForMitre eW8b "T2" "LOW" = impactHeuristic "LOW" := by
  refine ⟨?_, ?_, ?_⟩
  · exact (claim8_out_of_range_amended eW8a "T1" "LOW"
      { cvss := some (RVal.num 11), impact := some (RVal.num 50) } rfl).1
      (by norm_num [badCvssField])
  · exact (claim8_out_of_range_amended eW8a "T1" "LOW"
      { cvss := some (RVal.num 11), impact := some (RVal.num 50) } rfl).2.2
      50 rfl (by norm_num)
  · exact (claim8_out_of_range_amended eW8b "T2" "LOW"
      { cvss := some RVal.nonNum, impact := some RVal.nonNum } rfl).2.1
      (by norm_num [badImpactField])

/-! ## Claim C9 -/

/-- Claim C9: with an empty mapping store and empty risk metadata,
`classify("T9999", 250, h, null, null)` for any hostname `h` of
asset-criticality weight 1.5 returns HIGH: base LOW, raw risk
3.0·6 + 10 + 30 = 58, scaled to 58·1.5 = 87, which lies in the HIGH
bucket `[70, 90)`, and `max(LOW, HIGH) = HIGH`. -/
theorem claim9_high_scenario (hn : String)
    (hw : alook (pyStrip (pyLower hn)) asset_criticality = some 1.5) :
    classify eEmpty "T9999" 250 (some hn) none none = "HIGH" := by
  rw [classify_unfold]
  have hb : classifyBase eEmpty (pyStrip "T9999") none = "LOW" := by decide
  have haf : assetFactor eEmpty (some hn) none = 1.5 := by
    simp only [assetFactor, Option.getD_some, hw]
  have hkb : hasCriticalKeyword eEmpty (some hn) none = false := by
    simp [hasCriticalKeyword, Engine.criticalKeywords, eEmpty]
  rw [hb]
  simp only [computeRiskScore, haf, hkb]
  norm_num +decide [cvssForMitre, eEmpty, cvssHeuristic, alook, defaultCvssThresholds,
    impactForMitre, impactHeuristic, volumeFactor, Engine.escalation, clampRisk,
    severityFromRiskScore, maxSeverity, rank, idxOf, SEV_ORDER, pyUpper, pyEmpty,
    usableCvss, usableImpact, Bool.false_eq_true, if_false]

/-- Claim C9 (witness): the hostname of weight 1.5 in the hard-coded
table. -/
theorem claim9_witness :
    classify eEmpty "T9999" 250 (some "tos-nusantara.pelindo.co.id") none none = "HIGH" :=
  claim9_high_scenario "tos-nusantara.pelindo.co.id" rfl

/-! ## Claim C10 -/

/-- Claim C10: for a technique with no usable risk-metadata entry,
`classify` never returns INFO, whatever the configuration, count,
hostname, identity and hint: the heuristic cvss (≥ 1) and impact (≥ 5)
floors force a risk score of at least 1·6 + 5 = 11 > 0 (the asset factor
is always ≥ 1), so the risk-derived severity has rank ≥ 1 (at least
LOW), and the final verdict's rank is at least that. -/
theorem claim10_never_info (e : Engine) (mid : String) (c : Int) (hn idn ch : Option String)
    (hno : noUsableRisk e (pyStrip mid)) :
    1 ≤ rank (classify e mid c hn idn ch) ∧ classify e mid c hn idn ch ≠ "INFO" := by
  have hcv : ∀ bs, 1 ≤ cvssForMitre e (pyStrip mid) bs := by
    intro bs
    rw [cvssForMitre]
    cases hbind : (alook (pyStrip mid) e.mitre_risk).bind usableCvss with
    | none => exact cvssHeuristic_ge_one e bs
    | some v =>
      exfalso
      rcases Option.bind_eq_some.mp hbind with ⟨entry, he, hv⟩
      rw [(hno entry he).1] at hv
      exact Option.noConfusion hv
  have him : ∀ bs, 5 ≤ impactForMitre e (pyStrip mid) bs := by
    intro bs
    rw [impactForMitre]
    cases hbind : (alook (pyStrip mid) e.mitre_risk).bind usableImpact with
    | none => exact impactHeuristic_ge_five bs
    | some v =>
      exfalso
      rcases Option.bind_eq_some.mp hbind with ⟨entry, he, hv⟩
      rw [(hno entry he).2] at hv
      exact Option.noConfusion hv
  have hrisk : ∀ bs, (11:ℚ) ≤ computeRiskScore e (pyStrip mid) bs c hn idn := by
    intro bs
    simp only [computeRiskScore]
    have h1 := hcv (pyUpper (if pyEmpty bs then "LOW" else bs))
    have h2 := him (pyUpper (if pyEmpty bs then "LOW" else bs))
    have h3 := volumeFactor_nonneg e c
    have h4 := assetFactor_ge_one e hn idn
    have hmul := le_mul_of_one_le_right (by linarith :
      (0:ℚ) ≤ cvssForMitre e (pyStrip mid) (pyUpper (if pyEmpty bs then "LOW" else bs)) * 6 +
        impactForMitre e (pyStrip mid) (pyUpper (if pyEmpty bs then "LOW" else bs)) +
        volumeFactor e c) h4
    apply clampRisk_ge _ _ (by norm_num) (by norm_num)
    cases hk : hasCriticalKeyword e hn idn <;>
      simp only [hk, Bool.false_eq_true, if_false, if_true] <;>
      linarith
  have hpos := rank_sevFromRisk_pos
    (computeRiskScore e (pyStrip mid) (classifyBase e (pyStrip mid) ch) c hn idn)
    (lt_of_lt_of_le (by norm_num) (hrisk (classifyBase e (pyStrip mid) ch)))
  have hr1 : 1 ≤ rank (classify e mid c hn idn ch) := by
    rw [classify_unfold, rank_maxSeverity]
    omega
  refine ⟨hr1, ?_⟩
  intro hEq
  rw [hEq] at hr1
  exact absurd hr1 (by decide)

/-- Claim C10 (witness): the empty risk-metadata store has no usable
entry for any technique, and the verdict is never INFO. -/
theorem claim10_witness :
    1 ≤ rank (classify eEmpty "T0" 3 none none none) ∧
    classify eEmpty "T0" 3 none none none ≠ "INFO" :=
  claim10_never_info eEmpty "T0" 3 none none none
    (by intro entry h; simp [eEmpty, alook] at h)
